import Mathlib

/-!
Verification of the header src/bonsoir_windows/windows/bonsoir_broadcast.h
of the Bonsoir repository.

The repository fragment is a single declaration-only C++ header.  We embed
it twice, both directly transcribed from the source file:

* as raw text (`bonsoirBroadcastHLines`, the file's lines), so that purely
  textual claims (line counts, occurrence of identifiers) can be decided;
* as a small C++ declaration AST (`bonsoirBroadcastHeaderTU`), so that
  structural claims (which classes, members and functions are declared,
  with which types and qualifiers) can be decided.

Entities that the header references but whose definitions are not part of
the visible source (the Windows DNS-SD structures, the base class
`BonsoirAction`, the constructor body) are modelled separately, with doc
comments starting `Modelled from the spec:`.
-/

/-! ## Character-list string search helpers -/

/-- `charsLeadingMatch needle hay` is true when `needle` is an initial
segment of `hay`. -/
def charsLeadingMatch : List Char → List Char → Bool
  | [], _ => true
  | _ :: _, [] => false
  | n :: ns, h :: hs => n == h && charsLeadingMatch ns hs

/-- `charsContain needle hay` is true when `needle` occurs as a contiguous
sublist of `hay`. -/
def charsContain (needle : List Char) : List Char → Bool
  | [] => charsLeadingMatch needle []
  | h :: hs => charsLeadingMatch needle (h :: hs) || charsContain needle hs

/-- Number of (possibly overlapping) occurrences of `needle` in `hay`. -/
def charsOccCount (needle : List Char) : List Char → Nat
  | [] => 0
  | h :: hs => (if charsLeadingMatch needle (h :: hs) then 1 else 0) + charsOccCount needle hs

/-- Substring test on strings. -/
def strContains (hay needle : String) : Bool :=
  charsContain needle.data hay.data

/-! ## The header file, as raw text

Transcribed line by line from src/bonsoir_windows/windows/bonsoir_broadcast.h.
The file's final line is not newline-terminated, so the text below is joined
with a separating newline and no trailing newline. -/

/-- The lines of text of bonsoir_broadcast.h, in order. -/
def bonsoirBroadcastHLines : List String :=
  [ "#pragma once"
  , ""
  , "#include \"bonsoir_action.h\""
  , ""
  , "using namespace flutter;"
  , ""
  , "namespace bonsoir_windows \x7b"
  , "  class BonsoirBroadcast : public BonsoirAction \x7b"
  , "   public:"
  , "    BonsoirService service;"
  , ""
  , "    BonsoirBroadcast("
  , "      int _id,"
  , "      bool _printLogs,"
  , "      flutter::BinaryMessenger *_binaryMessenger,"
  , "      std::function<void()> onDispose,"
  , "      BonsoirService _service"
  , "    );"
  , ""
  , "    void start() override;"
  , ""
  , "    void dispose() override;"
  , ""
  , "   private:"
  , "    DNS_SERVICE_REGISTER_REQUEST registerRequest\x7b\x7d;"
  , "  \x7d;"
  , ""
  , "  void registerCallback(DWORD status, PVOID context, PDNS_SERVICE_INSTANCE instance);"
  , "\x7d  // namespace bonsoir_windows"
  ]

/-- The full text of the file: lines joined by a newline, with no trailing
newline (the source file's last line is unterminated). -/
def bonsoirBroadcastHText : String :=
  String.intercalate "\n" bonsoirBroadcastHLines

/-- Does an identifier (or any string) occur somewhere in the file's text? -/
def fileContains (needle : String) : Bool :=
  bonsoirBroadcastHLines.any (fun l => strContains l needle)

/-- Total number of occurrences of a string in the file (within lines). -/
def fileOccCount (needle : String) : Nat :=
  (bonsoirBroadcastHLines.map (fun l => charsOccCount needle.data l.data)).sum

/-- Number of newline characters in a string. -/
def newlineCount (s : String) : Nat :=
  (s.data.filter (fun c => c == '\n')).length

/-- Splits a character list at newline characters; a list with no newline is
one line, and every newline ends a line and starts a new one. -/
def splitLinesChars : List Char → List (List Char)
  | [] => [[]]
  | c :: cs =>
    if c == '\n' then
      [] :: splitLinesChars cs
    else
      match splitLinesChars cs with
      | [] => [[c]]
      | l :: ls => (c :: l) :: ls

/-- The number of lines of text of a string: maximal newline-free segments. -/
def textLineCount (s : String) : Nat :=
  (splitLinesChars s.data).length

/-! ## The header file, as a C++ declaration AST -/

/-- Types as they appear in the header's declarations. -/
inductive CppType where
  | intT : CppType
  | boolT : CppType
  | voidT : CppType
  | named : String → CppType
  | ptr : CppType → CppType
  | stdFunction : CppType → CppType
  deriving DecidableEq, Repr

/-- A function parameter: its declared type and name. -/
structure CppParam where
  type : CppType
  name : String
  deriving DecidableEq, Repr

/-- Member access specifier. -/
inductive Access where
  | pub : Access
  | priv : Access
  deriving DecidableEq, Repr

/-- A class member declaration.  `field` records whether the member has a
brace default member initializer; `ctorDecl` and `method` record whether a
body is given (all declarations in this header are bodiless). -/
inductive Member where
  | field : Access → CppType → String → Bool → Member
  | ctorDecl : Access → List CppParam → Bool → Member
  | method : Access → CppType → String → List CppParam → Bool → Bool → Member
  deriving DecidableEq, Repr

/-- A class declaration: name, public bases, members in declaration order. -/
structure ClassDecl where
  name : String
  publicBases : List String
  members : List Member
  deriving DecidableEq, Repr

/-- A namespace-scope declaration. -/
inductive TopDecl where
  | classD : ClassDecl → TopDecl
  | funD : CppType → String → List CppParam → Bool → TopDecl
  deriving DecidableEq, Repr

/-- A translation unit as visible in one header. -/
structure TranslationUnit where
  pragmaOnce : Bool
  includes : List String
  usingNamespaces : List String
  namespaces : List (String × List TopDecl)
  deriving DecidableEq, Repr

/-- Parameters of the BonsoirBroadcast constructor (lines 12-18). -/
def broadcastCtorParams : List CppParam :=
  [ ⟨CppType.intT, "_id"⟩
  , ⟨CppType.boolT, "_printLogs"⟩
  , ⟨CppType.ptr (CppType.named ("flutter::BinaryMessenger")), "_binaryMessenger"⟩
  , ⟨CppType.stdFunction CppType.voidT, "onDispose"⟩
  , ⟨CppType.named ("BonsoirService"), "_service"⟩
  ]

/-- Parameters of the free function registerCallback (line 28). -/
def registerCallbackParams : List CppParam :=
  [ ⟨CppType.named ("DWORD"), "status"⟩
  , ⟨CppType.named ("PVOID"), "context"⟩
  , ⟨CppType.named ("PDNS_SERVICE_INSTANCE"), "instance"⟩
  ]

/-- The class BonsoirBroadcast as declared on lines 8-26 of the header. -/
def bonsoirBroadcastClass : ClassDecl :=
  { name := "BonsoirBroadcast"
  , publicBases := ["BonsoirAction"]
  , members :=
      [ Member.field Access.pub (CppType.named ("BonsoirService")) ("service") false
      , Member.ctorDecl Access.pub broadcastCtorParams false
      , Member.method Access.pub CppType.voidT ("start") [] true false
      , Member.method Access.pub CppType.voidT ("dispose") [] true false
      , Member.field Access.priv (CppType.named ("DNS_SERVICE_REGISTER_REQUEST")) ("registerRequest") true
      ] }

/-- The whole header bonsoir_broadcast.h as a translation-unit AST. -/
def bonsoirBroadcastHeaderTU : TranslationUnit :=
  { pragmaOnce := true
  , includes := ["bonsoir_action.h"]
  , usingNamespaces := ["flutter"]
  , namespaces :=
      [ ( "bonsoir_windows"
        , [ TopDecl.classD bonsoirBroadcastClass
          , TopDecl.funD CppType.voidT ("registerCallback") registerCallbackParams false
          ] ) ] }

/-! ## Derived queries over the AST -/

/-- All class declarations of a translation unit. -/
def classesOf (tu : TranslationUnit) : List ClassDecl :=
  (tu.namespaces.map (fun ns =>
    ns.2.filterMap (fun d =>
      match d with
      | TopDecl.classD c => some c
      | TopDecl.funD _ _ _ _ => none))).flatten

/-- All free-function signatures of a translation unit:
(namespace, name, return type, parameter types, has a body). -/
def freeFunSigs (tu : TranslationUnit) : List (String × String × CppType × List CppType × Bool) :=
  (tu.namespaces.map (fun ns =>
    ns.2.filterMap (fun d =>
      match d with
      | TopDecl.classD _ => none
      | TopDecl.funD ret n ps b => some (ns.1, n, ret, ps.map (fun p => p.type), b)))).flatten

/-- The data-member declarations of a class: (access, type, name). -/
def fieldsOf (c : ClassDecl) : List (Access × CppType × String) :=
  c.members.filterMap (fun m =>
    match m with
    | Member.field a t n _ => some (a, t, n)
    | _ => none)

/-- The names of the data members of a class, in declaration order. -/
def fieldNamesOf (c : ClassDecl) : List String :=
  (fieldsOf c).map (fun f => f.2.2)

/-- Every callable a translation unit introduces, with whether a body is
given: constructors (under their class name), methods, free functions. -/
def callablesOf (tu : TranslationUnit) : List (String × Bool) :=
  ((tu.namespaces.map (fun ns =>
    (ns.2.map (fun d =>
      match d with
      | TopDecl.classD c =>
          c.members.filterMap (fun m =>
            match m with
            | Member.field _ _ _ _ => none
            | Member.ctorDecl _ _ b => some (c.name, b)
            | Member.method _ _ n _ _ b => some (n, b))
      | TopDecl.funD _ n _ b => [(n, b)])).flatten)).flatten)

/-- The return types of all methods and free functions of the unit. -/
def callableReturnTypes (tu : TranslationUnit) : List CppType :=
  ((tu.namespaces.map (fun ns =>
    (ns.2.map (fun d =>
      match d with
      | TopDecl.classD c =>
          c.members.filterMap (fun m =>
            match m with
            | Member.method _ r _ _ _ _ => some r
            | _ => none)
      | TopDecl.funD r _ _ _ => [r])).flatten)).flatten)

/-- The names of the methods a class declares with the override specifier. -/
def overrideMethodNamesOf (c : ClassDecl) : List String :=
  c.members.filterMap (fun m =>
    match m with
    | Member.method _ _ n _ ov _ => if ov then some n else none
    | _ => none)

/-- The names of all methods a class declares. -/
def methodNamesOf (c : ClassDecl) : List String :=
  c.members.filterMap (fun m =>
    match m with
    | Member.method _ _ n _ _ _ => some n
    | _ => none)

/-! ## Modelled entities not part of the visible source -/

/-- Modelled from the spec: the Windows DNS Service Discovery registration
request structure DNS_SERVICE_REGISTER_REQUEST is declared by the OS SDK
(windns.h), not by this repository; the spec names it as the request struct
the class wraps.  Its documented fields are Version, InterfaceIndex,
pServiceInstance, pRegisterCompletionCallback, pQueryContext, hCredentials
and unicastEnabled; pointers and handles are modelled as addresses with 0
for null. -/
structure DNS_SERVICE_REGISTER_REQUEST where
  Version : Nat
  InterfaceIndex : Nat
  pServiceInstance : Nat
  pRegisterCompletionCallback : Nat
  pQueryContext : Nat
  hCredentials : Nat
  unicastEnabled : Bool
  deriving DecidableEq, Repr

/-- Value-initialization of the request struct: every field zeroed, as C++
value-initialization of a class type with no user-provided constructor
zero-initializes each member. -/
def DNS_SERVICE_REGISTER_REQUEST.valueInit : DNS_SERVICE_REGISTER_REQUEST :=
  { Version := 0
  , InterfaceIndex := 0
  , pServiceInstance := 0
  , pRegisterCompletionCallback := 0
  , pQueryContext := 0
  , hCredentials := 0
  , unicastEnabled := false }

/-- All fields of a request are zero (null pointers, zero scalars, false). -/
def DNS_SERVICE_REGISTER_REQUEST.allZero (r : DNS_SERVICE_REGISTER_REQUEST) : Prop :=
  r.Version = 0 ∧ r.InterfaceIndex = 0 ∧ r.pServiceInstance = 0 ∧
    r.pRegisterCompletionCallback = 0 ∧ r.pQueryContext = 0 ∧
    r.hCredentials = 0 ∧ r.unicastEnabled = false

/-- The state of a constructed BonsoirBroadcast object that the header
itself declares: the public member service (of the externally declared type
BonsoirService, kept abstract as a type parameter) and the private member
registerRequest. -/
structure BonsoirBroadcastObj (σ : Type) where
  service : σ
  registerRequest : DNS_SERVICE_REGISTER_REQUEST

/-- Modelled from the spec: the constructor body lives in the unprovided
implementation file bonsoir_broadcast.cpp.  The header (line 25) gives
registerRequest the brace default member initializer, and nothing visible
initializes it otherwise, so construction value-initializes it; the
constructor's other arguments (_id, _printLogs, _binaryMessenger, onDispose)
configure base-class state the header does not declare and are consumed
without affecting the two declared members beyond service. -/
def BonsoirBroadcastConstruct (σ : Type) (_id : Int) (_printLogs : Bool)
    (_binaryMessenger : Nat) (_onDispose : Unit → Unit) (_service : σ) :
    BonsoirBroadcastObj σ :=
  { service := _service
  , registerRequest := DNS_SERVICE_REGISTER_REQUEST.valueInit }

/-- Modelled from the spec: the base class BonsoirAction is declared in
bonsoir_action.h, which is not part of the visible source.  All the model
records is whether it declares start and dispose as virtual. -/
structure BonsoirActionModel where
  virtualStart : Bool
  virtualDispose : Bool
  deriving DecidableEq, Repr

/-- Does the modelled base class declare a method of this name virtual? -/
def BonsoirActionModel.declaresVirtual (b : BonsoirActionModel) (m : String) : Bool :=
  (m == ("start") && b.virtualStart) || (m == ("dispose") && b.virtualDispose)

/-- Modelled from the spec: the C++ rule for the override specifier — a
translation unit containing this header is well-formed only if every method
BonsoirBroadcast marks override overrides a virtual method of its base
class BonsoirAction. -/
def overrideWellFormed (b : BonsoirActionModel) : Prop :=
  (overrideMethodNamesOf bonsoirBroadcastClass).all (fun m => b.declaresVirtual m) = true

/-- The dynamic type of an object reached through a BonsoirAction pointer
or reference. -/
inductive DynType where
  | action : DynType
  | broadcast : DynType
  deriving DecidableEq, Repr

/-- Which class's implementation a virtual call runs. -/
inductive Impl where
  | actionImpl : Impl
  | broadcastImpl : Impl
  deriving DecidableEq, Repr

/-- Modelled from the spec: C++ virtual dispatch — a call to a virtual
method through a base pointer or reference runs the final overrider of the
object's dynamic type; BonsoirBroadcast's overriders are exactly the
methods the header declares on it. -/
def virtualDispatch (dyn : DynType) (m : String) : Impl :=
  match dyn with
  | DynType.action => Impl.actionImpl
  | DynType.broadcast =>
    if (methodNamesOf bonsoirBroadcastClass).contains m then
      Impl.broadcastImpl
    else
      Impl.actionImpl

/-- Modelled from the spec: the Windows completion-callback type
DNS_SERVICE_REGISTER_COMPLETE of the OS SDK (windns.h): a function taking a
DWORD status, a PVOID query context and a PDNS_SERVICE_INSTANCE, returning
void.  Recorded as (return type, parameter types). -/
def DNS_SERVICE_REGISTER_COMPLETE_SIG : CppType × List CppType :=
  ( CppType.voidT
  , [ CppType.named ("DWORD")
    , CppType.named ("PVOID")
    , CppType.named ("PDNS_SERVICE_INSTANCE") ] )

/-! ## Claims -/

/-- C1 (counterexample): the claim requires that a use of DnsServiceRegister
appear in the translation unit; the class BonsoirBroadcast is visibly
declared (so the claim is not vacuous), yet the identifier
DnsServiceRegister occurs nowhere in the header's 29 lines — only the type
DNS_SERVICE_REGISTER_REQUEST does.  The invocation lives in the
implementation file, which is not part of the visible source. -/
theorem c1_counterexample_no_DnsServiceRegister :
    classesOf bonsoirBroadcastHeaderTU = [bonsoirBroadcastClass] ∧
    fileContains ("DnsServiceRegister") = false := by
  decide

/-- C1 (amended): the class BonsoirBroadcast's state includes a
DNS_SERVICE_REGISTER_REQUEST (its private member registerRequest), so that
type name appears in the translation unit; no use of DnsServiceRegister
appears in the visible header — the call is made in the unprovided
implementation file. -/
theorem c1_amended_wraps_register_request :
    Member.field Access.priv (CppType.named ("DNS_SERVICE_REGISTER_REQUEST"))
        ("registerRequest") true ∈ bonsoirBroadcastClass.members ∧
    fileContains ("DNS_SERVICE_REGISTER_REQUEST") = true ∧
    fileContains ("DnsServiceRegister") = false := by
  decide

/-- C2: the only failure-surfacing mechanism in the declared interface is
registerCallback's DWORD status parameter: registerCallback is the sole
free function, declared void registerCallback(DWORD status, PVOID context,
PDNS_SERVICE_INSTANCE instance); every method and function of the header
returns void (no return-value channel); the two data members carry no
error state (no field name or type mentions error, and no HRESULT
appears); and the text declares no exception machinery (no throw,
noexcept or exception token). -/
theorem c2_only_error_channel_is_registerCallback :
    freeFunSigs bonsoirBroadcastHeaderTU =
      [ ( ("bonsoir_windows"), ("registerCallback"), CppType.voidT
        , [ CppType.named ("DWORD"), CppType.named ("PVOID")
          , CppType.named ("PDNS_SERVICE_INSTANCE") ], false ) ] ∧
    registerCallbackParams.map (fun p => p.name) =
      [("status"), ("context"), ("instance")] ∧
    (callableReturnTypes bonsoirBroadcastHeaderTU).all
      (fun t => t == CppType.voidT) = true ∧
    fileContains ("rror") = false ∧
    fileContains ("HRESULT") = false ∧
    fileContains ("throw") = false ∧
    fileContains ("noexcept") = false ∧
    fileContains ("xception") = false := by
  decide

/-- C3: the header declares exactly one class, and its name is
BonsoirBroadcast; the token class occurs exactly once in the whole file. -/
theorem c3_single_class_BonsoirBroadcast :
    classesOf bonsoirBroadcastHeaderTU = [bonsoirBroadcastClass] ∧
    bonsoirBroadcastClass.name = ("BonsoirBroadcast") ∧
    fileOccCount ("class") = 1 := by
  decide

/-- C4: the header is declaration-only — the callables it introduces are
exactly the BonsoirBroadcast constructor, start, dispose and
registerCallback, and every one of them is declared without a body. -/
theorem c4_declaration_only_header :
    callablesOf bonsoirBroadcastHeaderTU =
      [ (("BonsoirBroadcast"), false), (("start"), false)
      , (("dispose"), false), (("registerCallback"), false) ] ∧
    (callablesOf bonsoirBroadcastHeaderTU).all (fun c => !c.2) = true := by
  decide

/-- C5 (counterexample): the claim says the state the header introduces
consists of one DNS_SERVICE_REGISTER_REQUEST value (registerRequest) and
one callback; but the class also declares the public data member service
of type BonsoirService, so the declared data members are not just
registerRequest. -/
theorem c5_counterexample_service_member :
    fieldNamesOf bonsoirBroadcastClass = [("service"), ("registerRequest")] ∧
    ([("service"), ("registerRequest")] : List String) ≠ [("registerRequest")] := by
  decide

/-- C5 (amended): the data the header declares is exactly two members —
the public BonsoirService service and the private
DNS_SERVICE_REGISTER_REQUEST registerRequest — and the only other
declaration is the free callback function registerCallback; no further
class or data structure is declared. -/
theorem c5_amended_declared_data :
    fieldsOf bonsoirBroadcastClass =
      [ (Access.pub, CppType.named ("BonsoirService"), ("service"))
      , (Access.priv, CppType.named ("DNS_SERVICE_REGISTER_REQUEST"), ("registerRequest")) ] ∧
    freeFunSigs bonsoirBroadcastHeaderTU =
      [ ( ("bonsoir_windows"), ("registerCallback"), CppType.voidT
        , [ CppType.named ("DWORD"), CppType.named ("PVOID")
          , CppType.named ("PDNS_SERVICE_INSTANCE") ], false ) ] ∧
    classesOf bonsoirBroadcastHeaderTU = [bonsoirBroadcastClass] := by
  decide

/-- C6 (counterexample): the visible fragment is 29 lines of text, not 28;
its final line (the namespace-closing brace) is not newline-terminated, so
only the newline count is 28. -/
theorem c6_counterexample_29_text_lines :
    textLineCount bonsoirBroadcastHText = 29 ∧ (29 : Nat) ≠ 28 := by
  decide

/-- C6 (amended): the visible source fragment contains exactly 28 newline
characters — 28 newline-terminated lines — and, the final line being
unterminated, 29 lines of text. -/
theorem c6_amended_28_newlines_29_lines :
    newlineCount bonsoirBroadcastHText = 28 ∧
    textLineCount bonsoirBroadcastHText = 29 := by
  decide

/-- C7: no concurrency coordination appears anywhere in the header: no
thread, mutex, lock, atomic, condition variable, semaphore, future, async,
volatile, Win32 critical section, interlocked operation, SRW lock, wait
call or HANDLE occurs in the text, and every declared data member is of
one of the two plain data types BonsoirService and
DNS_SERVICE_REGISTER_REQUEST. -/
theorem c7_no_concurrency_primitives :
    ([ ("thread"), ("Thread"), ("mutex"), ("Mutex"), ("lock"), ("Lock")
     , ("atomic"), ("Atomic"), ("condition_variable"), ("semaphore")
     , ("Semaphore"), ("future"), ("async"), ("volatile")
     , ("CRITICAL_SECTION"), ("Interlocked"), ("SRWLOCK"), ("WaitFor")
     , ("CreateThread"), ("HANDLE") ] : List String).all
      (fun t => !(fileContains t)) = true ∧
    (fieldsOf bonsoirBroadcastClass).all
      (fun f => f.2.1 == CppType.named ("BonsoirService") ||
        f.2.1 == CppType.named ("DNS_SERVICE_REGISTER_REQUEST")) = true := by
  decide

/-- C8: every freshly constructed BonsoirBroadcast has its registerRequest
member value-initialized — all fields zeroed — before start() can run: the
header (line 25) declares the member with the brace default member
initializer, so construction yields the value-initialized request,
whatever the constructor arguments. -/
theorem c8_registerRequest_value_initialized (σ : Type) (i : Int) (p : Bool)
    (bm : Nat) (od : Unit → Unit) (svc : σ) :
    (BonsoirBroadcastConstruct σ i p bm od svc).registerRequest.allZero ∧
    Member.field Access.priv (CppType.named ("DNS_SERVICE_REGISTER_REQUEST"))
        ("registerRequest") true ∈ bonsoirBroadcastClass.members :=
  ⟨⟨rfl, rfl, rfl, rfl, rfl, rfl, rfl⟩, by decide⟩

/-- C9: start and dispose are declared override, so any base class making
the header well-formed declares both virtual, and a virtual call to start
or dispose on an object whose dynamic type is BonsoirBroadcast — through a
BonsoirAction pointer or reference — dispatches to BonsoirBroadcast's
implementations. -/
theorem c9_override_forces_virtual_dispatch (b : BonsoirActionModel)
    (h : overrideWellFormed b) :
    b.virtualStart = true ∧ b.virtualDispose = true ∧
    overrideMethodNamesOf bonsoirBroadcastClass = [("start"), ("dispose")] ∧
    virtualDispatch DynType.broadcast ("start") = Impl.broadcastImpl ∧
    virtualDispatch DynType.broadcast ("dispose") = Impl.broadcastImpl := by
  have hall := List.all_eq_true.mp h
  have hs := hall ("start") (by decide)
  have hd := hall ("dispose") (by decide)
  refine ⟨?_, ?_, by decide, by decide, by decide⟩
  · simpa [BonsoirActionModel.declaresVirtual] using hs
  · simpa [BonsoirActionModel.declaresVirtual] using hd

/-- C9 (witness): the base-class model that declares both methods virtual
satisfies the well-formedness hypothesis, and the conclusions hold for it. -/
theorem c9_witness :
    (BonsoirActionModel.mk true true).virtualStart = true ∧
    (BonsoirActionModel.mk true true).virtualDispose = true ∧
    overrideMethodNamesOf bonsoirBroadcastClass = [("start"), ("dispose")] ∧
    virtualDispatch DynType.broadcast ("start") = Impl.broadcastImpl ∧
    virtualDispatch DynType.broadcast ("dispose") = Impl.broadcastImpl :=
  c9_override_forces_virtual_dispatch (BonsoirActionModel.mk true true)
    (by unfold overrideWellFormed; decide)

/-- C10: registerCallback is the unique free function of namespace
bonsoir_windows, and its signature — void return, parameters DWORD status,
PVOID context, PDNS_SERVICE_INSTANCE instance — coincides with the Windows
DNS_SERVICE_REGISTER_COMPLETE completion-callback type, so it can serve as
the completion callback of a DNS_SERVICE_REGISTER_REQUEST. -/
theorem c10_registerCallback_matches_completion_type :
    freeFunSigs bonsoirBroadcastHeaderTU =
      [ ( ("bonsoir_windows"), ("registerCallback")
        , DNS_SERVICE_REGISTER_COMPLETE_SIG.1
        , DNS_SERVICE_REGISTER_COMPLETE_SIG.2, false ) ] ∧
    registerCallbackParams.map (fun p => p.name) =
      [("status"), ("context"), ("instance")] := by
  decide
